import Mathlib

/-!
# Simple-Game-Render-Engine: matrix math, shader contract and frame orchestration

A shallow embedding of

* `src/utils/math.cpp`   (`Math::createTransMatrix`, `Math::createProjMatrix`,
  `Math::leftMulMatrix4`),
* `src/render/shaders/basicShader.cpp` (`BasicShader::loadClipping`,
  `BasicShader::bindAttributes`),
* `src/render/mainRender.cpp` (`MainRender::render`, `renderWithoutWater`,
  `renderWater`, `prepareShader`, `setScene`).

A `float*` to a 4x4 matrix is a list of sixteen scalars.  The scalar type is a
parameter of every definition, so the definitions run on `ℚ`; the theorems are
stated over `ℝ` with `Real.cos`, `Real.sin`, `Real.tan` as the `<cmath>`
functions (single-precision rounding is not modelled).
-/

namespace Math

variable {α : Type}

/-- Embedding of `Math::leftMulMatrix4(A, B)` (math.cpp 78-87).  The zero-initialised local `res[16]` is
filled by the triple loop `res[j*4+i] += B[k*4+i] * A[j*4+k]`, then copied over
`A` entry by entry.  The pair returned is the content of `A` and of `B` after
the call; `B` is only ever read. -/
def leftMulMatrix4 [Zero α] [Add α] [Mul α] (A B : List α) : List α × List α :=
  let res : List α := List.replicate 16 0
  let res := (List.range 4).foldl (fun res i =>
    (List.range 4).foldl (fun res j =>
      (List.range 4).foldl (fun res k =>
        res.set (j*4+i) (res.getD (j*4+i) 0 + B.getD (k*4+i) 0 * A.getD (j*4+k) 0))
        res) res) res
  let A := (List.range 16).foldl (fun A i => A.set i (res.getD i 0)) A
  (A, B)

/-- Embedding of `Math::createTransMatrix(tX, tY, tZ, rX, rY, rZ, scale)`
(math.cpp 5-64).
`cos` and `sin` are the `<cmath>` functions.  The buffer from `new float[4*4]`
starts here as sixteen zeros; the first double loop overwrites every entry. -/
def createTransMatrix [Zero α] [One α] [Add α] [Mul α] [Neg α] (cos sin : α → α)
    (tX tY tZ rX rY rZ scale : α) : List α :=
  let res : List α := List.replicate 16 0
  let res := (List.range 4).foldl (fun res i =>
    (List.range 4).foldl (fun res j =>
      res.set (i*4+j) (if i = j then 1 else 0)) res) res
  let scalingMatrix : List α := [
    scale, 0, 0, 0,
    0, scale, 0, 0,
    0, 0, scale, 0,
    0, 0, 0, 1]
  let res := (leftMulMatrix4 res scalingMatrix).1
  let rotateZMatrix : List α := [
    cos rZ, -sin rZ, 0, 0,
    sin rZ, cos rZ, 0, 0,
    0, 0, 1, 0,
    0, 0, 0, 1]
  let res := (leftMulMatrix4 res rotateZMatrix).1
  let rotateYMatrix : List α := [
    cos rY, 0, -sin rY, 0,
    0, 1, 0, 0,
    sin rY, 0, cos rY, 0,
    0, 0, 0, 1]
  let res := (leftMulMatrix4 res rotateYMatrix).1
  let rotateXMatrix : List α := [
    1, 0, 0, 0,
    0, cos rX, sin rX, 0,
    0, -sin rX, cos rX, 0,
    0, 0, 0, 1]
  let res := (leftMulMatrix4 res rotateXMatrix).1
  let translationMatrix : List α := [
    1, 0, 0, 0,
    0, 1, 0, 0,
    0, 0, 1, 0,
    tX, tY, tZ, 1]
  let res := (leftMulMatrix4 res translationMatrix).1
  res

/-- Embedding of `Math::createProjMatrix(ratio, fov, zNear, zFar)`
(math.cpp 67-75); `tan` is the `<cmath>` function. -/
def createProjMatrix [Field α]
    (tan : α → α) (ratio fov zNear zFar : α) : List α := [
  1/tan (fov/2)/ratio, 0, 0, 0,
  0, 1/tan (fov/2), 0, 0,
  0, 0, -(zFar+zNear)/(zFar-zNear), -1,
  0, 0, -2*zFar*zNear/(zFar-zNear), 0]

/-- The 4x4 matrix an array stands for under the column-major reading: the
entry at row `r`, column `c` is `M[4*c+r]`. -/
def toMatrix [Zero α] (M : List α) : Matrix (Fin 4) (Fin 4) α :=
  fun r c => M.getD (4 * c.val + r.val) 0

/-- The upper-left 3x3 block (indices 0,1,2, 4,5,6, 8,9,10) under the same
reading. -/
def rotBlock [Zero α] (M : List α) : Matrix (Fin 3) (Fin 3) α :=
  fun r c => M.getD (4 * c.val + r.val) 0

/-- The array holding the 4x4 identity. -/
def identity4 [Zero α] [One α] : List α := [
  1, 0, 0, 0,
  0, 1, 0, 0,
  0, 0, 1, 0,
  0, 0, 0, 1]

/-- Rotation block of `rotateXMatrix` for cosine `c` and sine `s`. -/
def blockX {α : Type} [Zero α] [One α] [Neg α] (c s : α) : Matrix (Fin 3) (Fin 3) α :=
  rotBlock [1, 0, 0, 0, 0, c, s, 0, 0, -s, c, 0, 0, 0, 0, 1]

/-- Rotation block of `rotateYMatrix` for cosine `c` and sine `s`. -/
def blockY {α : Type} [Zero α] [One α] [Neg α] (c s : α) : Matrix (Fin 3) (Fin 3) α :=
  rotBlock [c, 0, -s, 0, 0, 1, 0, 0, s, 0, c, 0, 0, 0, 0, 1]

/-- Rotation block of `rotateZMatrix` for cosine `c` and sine `s`. -/
def blockZ {α : Type} [Zero α] [One α] [Neg α] (c s : α) : Matrix (Fin 3) (Fin 3) α :=
  rotBlock [c, -s, 0, 0, s, c, 0, 0, 0, 0, 1, 0, 0, 0, 0, 1]

end Math


namespace BasicShader

/-- Capability bit `SHADER_LOAD_LIGHT` (basicShader.cpp 4). -/
def SHADER_LOAD_LIGHT : Nat := 1

/-- Capability bit `SHADER_LOAD_CLIP` (basicShader.cpp 5). -/
def SHADER_LOAD_CLIP : Nat := 2

/-- Capability bit `SHADER_BIND_TEX_NORM` (basicShader.cpp 6). -/
def SHADER_BIND_TEX_NORM : Nat := 4

/-- The calls a `BasicShader` makes on its base class `ShaderProgram` (whose
code is not part of the sources): `bindAttribute(slot, name)`,
`loadFloat(loc, v)` and `loadBool(loc, b)`; a uniform location is named by the
uniform it was resolved from in `getAllUniformLocs`. -/
inductive ProgramCall (α : Type) where
  | bindAttribute (slot : Nat) (name : String)
  | loadFloat (uniform : String) (value : α)
  | loadBool (uniform : String) (value : Bool)
  deriving DecidableEq, Repr

/-- Embedding of `BasicShader::bindAttributes()` (basicShader.cpp 83-93) for a shader whose
member `mode` is `mode`.  The C++ condition is `if (SHADER_BIND_TEX_NORM)`, true
when the constant is non-zero; the member `mode` is not read. -/
def bindAttributes {α : Type} (_mode : Nat) : List (ProgramCall α) :=
  [ProgramCall.bindAttribute 0 "position"] ++
    (if SHADER_BIND_TEX_NORM ≠ 0 then
      [ProgramCall.bindAttribute 1 "textureCoord", ProgramCall.bindAttribute 2 "norm"]
    else [])

/-- Embedding of `BasicShader::loadClipping(height, clipPositive)` (basicShader.cpp 51-58) for
a shader whose member `mode` is `mode`. -/
def loadClipping {α : Type} (mode : Nat) (height : α) (clipPositive : Bool) :
    List (ProgramCall α) :=
  if mode &&& SHADER_LOAD_CLIP ≠ 0 then
    [ProgramCall.loadFloat "clipHeight" height, ProgramCall.loadBool "clipPositive" clipPositive]
  else []

/-- The slots bound by a list of program calls. -/
def boundSlots {α : Type} (calls : List (ProgramCall α)) : List Nat :=
  calls.filterMap fun c =>
    match c with
    | ProgramCall.bindAttribute slot _ => some slot
    | _ => none

end BasicShader

namespace MainRender

variable {α : Type}

/-- The `vec3` of `utils/struct/struct.h`: three floats `x`, `y`, `z`. -/
structure vec3 (α : Type) where
  x : α
  y : α
  z : α
  deriving DecidableEq, Repr

/-- Modelled from the spec: the unary minus of `vec3` (declared in
`utils/struct/struct.h`, which is not among the sources) that `render` applies
to the camera position and rotation; the spec calls the result the negated
position and rotation, so every component is negated. -/
def vec3.neg [Neg α] (v : vec3 α) : vec3 α := ⟨-v.x, -v.y, -v.z⟩

/-- The four shader programs `MainRender` owns. -/
inductive Shader where
  | entityShader
  | terrainShader
  | waterShader
  | skyboxShader
  deriving DecidableEq, Repr

/-- What `render` reads from the `Scene` it points to.  Objects (lights,
entities, terrains, the skybox, water bodies) are named by their addresses;
each unordered container is given in the order its iteration visits it. -/
structure Scene (α : Type) where
  getSkyCol : vec3 α
  getWaterHeight : α
  getAllLight : List Nat
  getAllEntities : List (String × List Nat)
  getAllTerrains : List (String × List Nat)
  getSkybox : Nat
  getAllWater : List Nat
  deriving DecidableEq, Repr

/-- The static state of `MainRender` that `render` tests: the `scene` pointer,
`none` for `NULL`. -/
structure State (α : Type) where
  scene : Option (Scene α)
  deriving DecidableEq, Repr

/-- What `Camera::getPos()` and `Camera::getRot()` return. -/
structure Camera (α : Type) where
  getPos : vec3 α
  getRot : vec3 α
  deriving DecidableEq, Repr

/-- The default arguments `clipHeight`, `clipPositive` that `mainRender.h` (not
among the sources) declares for `renderWithoutWater` and for `prepareShader`;
`render` and `renderWater` call both without these arguments. -/
structure Defaults (α : Type) where
  renderClipHeight : α
  renderClipPositive : Bool
  prepareClipHeight : α
  prepareClipPositive : Bool
  deriving DecidableEq, Repr

/-- The arguments of one call `Math::createTransMatrix(vec3, vec3, float, bool)`;
the matrix the call returns is named by them. -/
structure TransArgs (α : Type) where
  translation : vec3 α
  rotation : vec3 α
  scale : α
  flag : Bool
  deriving DecidableEq, Repr

/-- The calls `render` issues on its collaborators, in program order. -/
inductive Event (α : Type) where
  | cerr (msg : String)
  | exit (code : Int)
  | createTransMatrix (args : TransArgs α)
  | glClear
  | glClearColor (r g b a : α)
  | start (shader : Shader)
  | loadCameraMatrix (shader : Shader) (matrix : TransArgs α)
  | loadSkyCol (shader : Shader) (col : vec3 α)
  | loadClipping (shader : Shader) (height : α) (clipPositive : Bool)
  | stop (shader : Shader)
  | bindEntity (entity : Option Nat) (shader : Shader)
  | renderEntity (entity : Nat) (light : List Nat) (shader : Shader)
  | unbindEntity
  | bindTerrain (terrain : Option Nat)
  | renderTerrain (terrain : Nat) (light : List Nat) (shader : Shader)
  | unbindTerrain
  | renderSkybox (skybox : Nat) (shader : Shader)
  | bindRefractionFbo
  | bindReflectionFbo
  | unbindFbo
  | bindWater (water : Option Nat)
  | renderWaterBody (water : Nat) (light : List Nat) (shader : Shader)
  | unbindWater
  | sceneUpdate
  | updateDisplay
  | updateFps
  deriving DecidableEq, Repr

/-- How a call of `render` ends: it returns, or the process exits. -/
inductive Outcome where
  | returned
  | exited (code : Int)
  deriving DecidableEq, Repr

/-- The initial value of the static `scene` pointer (mainRender.cpp 32). -/
def initialState : State α := ⟨none⟩

/-- Embedding of `MainRender::getScene()` (mainRender.cpp 136-139). -/
def getScene (st : State α) : Option (Scene α) := st.scene

/-- Embedding of `MainRender::setScene(_scene)` (mainRender.cpp 142-145). -/
def setScene (_st : State α) (_scene : Option (Scene α)) : State α := ⟨_scene⟩

/-- Embedding of `MainRender::prepareShader` (mainRender.cpp 234-240). -/
def prepareShader (scene : Scene α) (shader : Shader) (cameraMatrix : TransArgs α)
    (clipHeight : α) (clipPositive : Bool) : List (Event α) :=
  [Event.start shader,
   Event.loadCameraMatrix shader cameraMatrix,
   Event.loadSkyCol shader scene.getSkyCol,
   Event.loadClipping shader clipHeight clipPositive]

/-- The loop over `*entityMap` in `renderWithoutWater` (mainRender.cpp 166-172):
per group, bind its first entity, render every member, unbind. -/
def entityLoop (light : List Nat) : List (String × List Nat) → List (Event α)
  | [] => []
  | entitySet :: rest =>
    [Event.bindEntity entitySet.2.head? Shader.entityShader] ++
      entitySet.2.map (fun entity => Event.renderEntity entity light Shader.entityShader) ++
      [Event.unbindEntity] ++ entityLoop light rest

/-- The loop over `*terrainMap` in `renderWithoutWater` (mainRender.cpp 178-184). -/
def terrainLoop (light : List Nat) : List (String × List Nat) → List (Event α)
  | [] => []
  | terrainSet :: rest =>
    [Event.bindTerrain terrainSet.2.head?] ++
      terrainSet.2.map (fun terrain => Event.renderTerrain terrain light Shader.terrainShader) ++
      [Event.unbindTerrain] ++ terrainLoop light rest

/-- Embedding of `MainRender::renderWithoutWater` (mainRender.cpp 148-195). -/
def renderWithoutWater [One α] (scene : Scene α) (cameraMatrix : TransArgs α)
    (clipHeight : α) (clipPositive : Bool) : List (Event α) :=
  let skyCol := scene.getSkyCol
  let light := scene.getAllLight
  [Event.glClear, Event.glClearColor skyCol.x skyCol.y skyCol.z 1] ++
    prepareShader scene Shader.entityShader cameraMatrix clipHeight clipPositive ++
    entityLoop light scene.getAllEntities ++
    [Event.stop Shader.entityShader] ++
    prepareShader scene Shader.terrainShader cameraMatrix clipHeight clipPositive ++
    terrainLoop light scene.getAllTerrains ++
    [Event.stop Shader.terrainShader] ++
    prepareShader scene Shader.skyboxShader cameraMatrix clipHeight clipPositive ++
    [Event.renderSkybox scene.getSkybox Shader.skyboxShader,
     Event.stop Shader.skyboxShader]

/-- The water bodies drawn at the end of `renderWater` (mainRender.cpp 221-227):
nothing for an empty set, else bind the first, render each, unbind. -/
def waterLoop (light : List Nat) (waterSet : List Nat) : List (Event α) :=
  if waterSet.isEmpty then []
  else
    [Event.bindWater waterSet.head?] ++
      waterSet.map (fun water => Event.renderWaterBody water light Shader.waterShader) ++
      [Event.unbindWater]

/-- Embedding of `MainRender::renderWater` (mainRender.cpp 198-231). -/
def renderWater [Ring α] (scene : Scene α) (d : Defaults α)
    (cameraMatrix reflectionCameraMatrix : TransArgs α) : List (Event α) :=
  let light := scene.getAllLight
  [Event.bindRefractionFbo] ++
    renderWithoutWater scene cameraMatrix (scene.getWaterHeight + 2) true ++
    [Event.unbindFbo] ++
    [Event.bindReflectionFbo] ++
    renderWithoutWater scene reflectionCameraMatrix (scene.getWaterHeight - 2) false ++
    [Event.unbindFbo] ++
    prepareShader scene Shader.waterShader cameraMatrix d.prepareClipHeight
      d.prepareClipPositive ++
    waterLoop light scene.getAllWater

/-- Embedding of `MainRender::render` (mainRender.cpp 83-113): the calls it issues and how it
ends. -/
def render [Ring α] (st : State α) (camera : Camera α) (d : Defaults α) :
    List (Event α) × Outcome :=
  match st.scene with
  | none => ([Event.cerr "No scene to render!", Event.exit (-1)], Outcome.exited (-1))
  | some scene =>
    let cameraPos := camera.getPos
    let cameraRot := camera.getRot
    let cameraMatrix : TransArgs α := ⟨cameraPos.neg, cameraRot.neg, 1, true⟩
    let reflectionCameraMatrix : TransArgs α :=
      ⟨⟨-cameraPos.x, cameraPos.y - 2 * scene.getWaterHeight, -cameraPos.z⟩,
       ⟨cameraRot.x, -cameraRot.y, -cameraRot.z⟩, 1, true⟩
    ([Event.createTransMatrix cameraMatrix,
      Event.createTransMatrix reflectionCameraMatrix] ++
      renderWithoutWater scene cameraMatrix d.renderClipHeight d.renderClipPositive ++
      renderWater scene d cameraMatrix reflectionCameraMatrix ++
      [Event.sceneUpdate, Event.updateDisplay, Event.updateFps],
     Outcome.returned)

/-- The render target a draw goes to. -/
inductive Target where
  | screen
  | refraction
  | reflection
  deriving DecidableEq, Repr

/-- Modelled from the spec: `WaterFbo` is not among the sources; by the spec,
binding redirects all subsequent draws to the bound target and `unbindFbo`
restores the default target.  Every other call leaves the target as it is. -/
def targetAfter (t : Target) : Event α → Target
  | Event.bindRefractionFbo => Target.refraction
  | Event.bindReflectionFbo => Target.reflection
  | Event.unbindFbo => Target.screen
  | _ => t

/-- The passes of a trace: every shader `start`, with the target bound when it
is issued, in program order. -/
def passesFrom (t : Target) : List (Event α) → List (Target × Shader)
  | [] => []
  | Event.start shader :: es => (t, shader) :: passesFrom t es
  | e :: es => passesFrom (targetAfter t e) es

/-- The `loadClipping` calls of a trace: shader, height and flag, with the
target bound when the call is issued, in program order. -/
def clipCallsFrom (t : Target) : List (Event α) → List (Target × Shader × α × Bool)
  | [] => []
  | Event.loadClipping shader height clipPositive :: es =>
    (t, shader, height, clipPositive) :: clipCallsFrom t es
  | e :: es => clipCallsFrom (targetAfter t e) es

/-- The argument lists of the `createTransMatrix` calls of a trace, in order. -/
def transMatrixCalls (tr : List (Event α)) : List (TransArgs α) :=
  tr.filterMap fun e =>
    match e with
    | Event.createTransMatrix args => some args
    | _ => none

/-- Calls that draw or bind objects; they neither start a shader, nor load a
clip plane, nor change the target. -/
def Event.isDraw : Event α → Bool
  | Event.bindEntity _ _ => true
  | Event.renderEntity _ _ _ => true
  | Event.unbindEntity => true
  | Event.bindTerrain _ => true
  | Event.renderTerrain _ _ _ => true
  | Event.unbindTerrain => true
  | Event.renderSkybox _ _ => true
  | Event.bindWater _ => true
  | Event.renderWaterBody _ _ _ => true
  | Event.unbindWater => true
  | _ => false

/-- A scene with water at height 0, one light, a group of two entities, one
terrain tile and one water body. -/
def demoScene [Ring α] : Scene α where
  getSkyCol := ⟨0, 0, 1⟩
  getWaterHeight := 0
  getAllLight := [1]
  getAllEntities := [("tree", [10, 11])]
  getAllTerrains := [("grass", [20])]
  getSkybox := 30
  getAllWater := [40]

/-- A camera at (1, 5, 2) with rotation (3, 4, 6). -/
def demoCamera [Ring α] : Camera α := ⟨⟨1, 5, 2⟩, ⟨3, 4, 6⟩⟩

/-- Some values for the defaults of the header. -/
def demoDefaults [Ring α] : Defaults α := ⟨0, false, 0, false⟩

end MainRender

namespace Math

/-- A list of sixteen entries, spelled out. -/
theorem exists_entries_of_length {α : Type} (A : List α) (h : A.length = 16) :
    ∃ a0 a1 a2 a3 a4 a5 a6 a7 a8 a9 a10 a11 a12 a13 a14 a15 : α,
      A = [a0, a1, a2, a3, a4, a5, a6, a7, a8, a9, a10, a11, a12, a13, a14, a15] := by
  match A, h with
  | [a0, a1, a2, a3, a4, a5, a6, a7, a8, a9, a10, a11, a12, a13, a14, a15], _ =>
    exact ⟨a0, a1, a2, a3, a4, a5, a6, a7, a8, a9, a10, a11, a12, a13, a14, a15, rfl⟩

/-- The triple loop, unrolled on two spelled-out arrays. -/
theorem leftMulMatrix4_entries {α : Type} [CommRing α]
    (a0 a1 a2 a3 a4 a5 a6 a7 a8 a9 a10 a11 a12 a13 a14 a15 : α)
    (b0 b1 b2 b3 b4 b5 b6 b7 b8 b9 b10 b11 b12 b13 b14 b15 : α) :
    (leftMulMatrix4 [a0, a1, a2, a3, a4, a5, a6, a7, a8, a9, a10, a11, a12, a13, a14, a15]
        [b0, b1, b2, b3, b4, b5, b6, b7, b8, b9, b10, b11, b12, b13, b14, b15]).1 =
      [b0*a0 + b4*a1 + b8*a2 + b12*a3, b1*a0 + b5*a1 + b9*a2 + b13*a3,
       b2*a0 + b6*a1 + b10*a2 + b14*a3, b3*a0 + b7*a1 + b11*a2 + b15*a3,
       b0*a4 + b4*a5 + b8*a6 + b12*a7, b1*a4 + b5*a5 + b9*a6 + b13*a7,
       b2*a4 + b6*a5 + b10*a6 + b14*a7, b3*a4 + b7*a5 + b11*a6 + b15*a7,
       b0*a8 + b4*a9 + b8*a10 + b12*a11, b1*a8 + b5*a9 + b9*a10 + b13*a11,
       b2*a8 + b6*a9 + b10*a10 + b14*a11, b3*a8 + b7*a9 + b11*a10 + b15*a11,
       b0*a12 + b4*a13 + b8*a14 + b12*a15, b1*a12 + b5*a13 + b9*a14 + b13*a15,
       b2*a12 + b6*a13 + b10*a14 + b14*a15, b3*a12 + b7*a13 + b11*a14 + b15*a15] := by
  simp [leftMulMatrix4, List.range_succ, List.range_zero]

end Math

namespace Math

/-- The result array of `leftMulMatrix4` read as a matrix, on spelled-out arrays. -/
theorem toMatrix_leftMulMatrix4_entries {α : Type} [CommRing α]
    (a0 a1 a2 a3 a4 a5 a6 a7 a8 a9 a10 a11 a12 a13 a14 a15 : α)
    (b0 b1 b2 b3 b4 b5 b6 b7 b8 b9 b10 b11 b12 b13 b14 b15 : α) :
    toMatrix (leftMulMatrix4
        [a0, a1, a2, a3, a4, a5, a6, a7, a8, a9, a10, a11, a12, a13, a14, a15]
        [b0, b1, b2, b3, b4, b5, b6, b7, b8, b9, b10, b11, b12, b13, b14, b15]).1 =
      toMatrix [b0, b1, b2, b3, b4, b5, b6, b7, b8, b9, b10, b11, b12, b13, b14, b15] *
        toMatrix [a0, a1, a2, a3, a4, a5, a6, a7, a8, a9, a10, a11, a12, a13, a14, a15] := by
  rw [leftMulMatrix4_entries]
  ext r c
  fin_cases r <;> fin_cases c <;>
    simp [toMatrix, Matrix.mul_apply, Fin.sum_univ_four, Fin.coe_ofNat_eq_mod]

/-- The result of `leftMulMatrix4` on two sixteen-entry arrays, as a matrix. -/
theorem toMatrix_leftMulMatrix4 {α : Type} [CommRing α] (A B : List α)
    (hA : A.length = 16) (hB : B.length = 16) :
    toMatrix (leftMulMatrix4 A B).1 = toMatrix B * toMatrix A := by
  obtain ⟨a0, a1, a2, a3, a4, a5, a6, a7, a8, a9, a10, a11, a12, a13, a14, a15, rfl⟩ :=
    exists_entries_of_length A hA
  obtain ⟨b0, b1, b2, b3, b4, b5, b6, b7, b8, b9, b10, b11, b12, b13, b14, b15, rfl⟩ :=
    exists_entries_of_length B hB
  exact toMatrix_leftMulMatrix4_entries _ _ _ _ _ _ _ _ _ _ _ _ _ _ _ _ _ _ _ _ _ _ _ _ _ _ _ _
    _ _ _ _

/-- The accumulator still has sixteen entries after `leftMulMatrix4`. -/
theorem length_leftMulMatrix4 {α : Type} [CommRing α] (A B : List α)
    (hA : A.length = 16) (hB : B.length = 16) :
    (leftMulMatrix4 A B).1.length = 16 := by
  obtain ⟨a0, a1, a2, a3, a4, a5, a6, a7, a8, a9, a10, a11, a12, a13, a14, a15, rfl⟩ :=
    exists_entries_of_length A hA
  obtain ⟨b0, b1, b2, b3, b4, b5, b6, b7, b8, b9, b10, b11, b12, b13, b14, b15, rfl⟩ :=
    exists_entries_of_length B hB
  rw [leftMulMatrix4_entries]
  rfl

/-- Two sixteen-entry arrays that stand for the same matrix are the same array. -/
theorem eq_of_toMatrix_eq {α : Type} [Zero α] (A B : List α)
    (hA : A.length = 16) (hB : B.length = 16) (h : toMatrix A = toMatrix B) : A = B := by
  obtain ⟨a0, a1, a2, a3, a4, a5, a6, a7, a8, a9, a10, a11, a12, a13, a14, a15, rfl⟩ :=
    exists_entries_of_length A hA
  obtain ⟨b0, b1, b2, b3, b4, b5, b6, b7, b8, b9, b10, b11, b12, b13, b14, b15, rfl⟩ :=
    exists_entries_of_length B hB
  have e := fun (r c : Fin 4) => congrFun (congrFun h r) c
  have e00 := e 0 0; have e10 := e 1 0; have e20 := e 2 0; have e30 := e 3 0
  have e01 := e 0 1; have e11 := e 1 1; have e21 := e 2 1; have e31 := e 3 1
  have e02 := e 0 2; have e12 := e 1 2; have e22 := e 2 2; have e32 := e 3 2
  have e03 := e 0 3; have e13 := e 1 3; have e23 := e 2 3; have e33 := e 3 3
  simp [toMatrix, Fin.coe_ofNat_eq_mod] at e00 e10 e20 e30 e01 e11 e21 e31 e02 e12 e22 e32 e03 e13 e23 e33
  simp [*]

/-- The identity array stands for the identity matrix. -/
theorem toMatrix_identity4 {α : Type} [CommRing α] :
    toMatrix (identity4 : List α) = 1 := by
  ext r c
  fin_cases r <;> fin_cases c <;> simp [toMatrix, identity4, Fin.coe_ofNat_eq_mod]

/-- C1. Reading an array `M` as the matrix with entry `M[4*c+r]` at row `r`,
column `c`, the call `leftMulMatrix4(A, B)` on two sixteen-entry real arrays
leaves `A` holding the product `B * A` (still sixteen entries) and leaves `B`
as it was. -/
theorem leftMulMatrix4_spec (A B : List ℝ) (hA : A.length = 16) (hB : B.length = 16) :
    toMatrix (leftMulMatrix4 A B).1 = toMatrix B * toMatrix A ∧
      (leftMulMatrix4 A B).1.length = 16 ∧
      (leftMulMatrix4 A B).2 = B :=
  ⟨toMatrix_leftMulMatrix4 A B hA hB, length_leftMulMatrix4 A B hA hB, rfl⟩

/-- Witness of C1 on the arrays 1..16 and a shear-and-shift matrix. -/
theorem leftMulMatrix4_spec_witness :
    ([1, 2, 3, 4, 5, 6, 7, 8, 9, 10, 11, 12, 13, 14, 15, 16] : List ℝ).length = 16 ∧
    ([1, 0, 2, 0, 0, 1, 0, 0, 0, 3, 1, 0, 5, 0, 0, 1] : List ℝ).length = 16 ∧
    (toMatrix (leftMulMatrix4 ([1, 2, 3, 4, 5, 6, 7, 8, 9, 10, 11, 12, 13, 14, 15, 16] : List ℝ)
        [1, 0, 2, 0, 0, 1, 0, 0, 0, 3, 1, 0, 5, 0, 0, 1]).1 =
      toMatrix ([1, 0, 2, 0, 0, 1, 0, 0, 0, 3, 1, 0, 5, 0, 0, 1] : List ℝ) *
        toMatrix ([1, 2, 3, 4, 5, 6, 7, 8, 9, 10, 11, 12, 13, 14, 15, 16] : List ℝ) ∧
      (leftMulMatrix4 ([1, 2, 3, 4, 5, 6, 7, 8, 9, 10, 11, 12, 13, 14, 15, 16] : List ℝ)
        [1, 0, 2, 0, 0, 1, 0, 0, 0, 3, 1, 0, 5, 0, 0, 1]).1.length = 16 ∧
      (leftMulMatrix4 ([1, 2, 3, 4, 5, 6, 7, 8, 9, 10, 11, 12, 13, 14, 15, 16] : List ℝ)
        [1, 0, 2, 0, 0, 1, 0, 0, 0, 3, 1, 0, 5, 0, 0, 1]).2 =
        [1, 0, 2, 0, 0, 1, 0, 0, 0, 3, 1, 0, 5, 0, 0, 1]) :=
  ⟨rfl, rfl, leftMulMatrix4_spec _ _ rfl rfl⟩

end Math

namespace Math

/-- The first double loop of `createTransMatrix` leaves the identity array. -/
theorem identity_loop {α : Type} [CommRing α] :
    (List.range 4).foldl (fun res i =>
      (List.range 4).foldl (fun res j =>
        res.set (i*4+j) (if i = j then (1 : α) else 0)) res) (List.replicate 16 0)
      = identity4 := by
  simp [List.range_succ, List.range_zero, identity4]

/-- The sixteen entries `createTransMatrix` returns, as polynomials in the
translation, the scale and the cosines and sines of the three angles. -/
theorem createTransMatrix_entries {α : Type} [CommRing α] (cos sin : α → α)
    (tX tY tZ rX rY rZ s : α) :
    createTransMatrix cos sin tX tY tZ rX rY rZ s =
      [cos rY * (cos rZ * s),
       -(cos rX * (sin rZ * s)) + sin rX * (sin rY * (cos rZ * s)),
       -(sin rX * (sin rZ * s)) + -(cos rX * (sin rY * (cos rZ * s))),
       0,
       cos rY * (sin rZ * s),
       cos rX * (cos rZ * s) + sin rX * (sin rY * (sin rZ * s)),
       sin rX * (cos rZ * s) + -(cos rX * (sin rY * (sin rZ * s))),
       0,
       sin rY * s,
       -(sin rX * (cos rY * s)),
       cos rX * (cos rY * s),
       0,
       tX, tY, tZ, 1] := by
  simp only [createTransMatrix]
  rw [identity_loop]
  simp [identity4, leftMulMatrix4_entries]

theorem blockX_orthogonal {α : Type} [CommRing α] (c s : α) (h : c ^ 2 + s ^ 2 = 1) :
    (blockX c s).transpose * blockX c s = 1 := by
  ext i j
  fin_cases i <;> fin_cases j <;>
    simp [blockX, rotBlock, Matrix.mul_apply, Fin.sum_univ_three, Fin.coe_ofNat_eq_mod] <;>
    first | ring1 | linear_combination h

theorem blockY_orthogonal {α : Type} [CommRing α] (c s : α) (h : c ^ 2 + s ^ 2 = 1) :
    (blockY c s).transpose * blockY c s = 1 := by
  ext i j
  fin_cases i <;> fin_cases j <;>
    simp [blockY, rotBlock, Matrix.mul_apply, Fin.sum_univ_three, Fin.coe_ofNat_eq_mod] <;>
    first | ring1 | linear_combination h

theorem blockZ_orthogonal {α : Type} [CommRing α] (c s : α) (h : c ^ 2 + s ^ 2 = 1) :
    (blockZ c s).transpose * blockZ c s = 1 := by
  ext i j
  fin_cases i <;> fin_cases j <;>
    simp [blockZ, rotBlock, Matrix.mul_apply, Fin.sum_univ_three, Fin.coe_ofNat_eq_mod] <;>
    first | ring1 | linear_combination h

/-- The rotation block of the result is `scale` times the product of the three
rotation blocks, X after Y after Z. -/
theorem rotBlock_createTransMatrix {α : Type} [CommRing α] (cos sin : α → α)
    (tX tY tZ rX rY rZ s : α) :
    rotBlock (createTransMatrix cos sin tX tY tZ rX rY rZ s) =
      s • (blockX (cos rX) (sin rX) * (blockY (cos rY) (sin rY) * blockZ (cos rZ) (sin rZ))) := by
  rw [createTransMatrix_entries]
  ext i j
  fin_cases i <;> fin_cases j <;>
    simp [rotBlock, blockX, blockY, blockZ, Matrix.mul_apply, Fin.sum_univ_three,
      Fin.coe_ofNat_eq_mod] <;> ring

/-- A scaled product of three orthogonal blocks satisfies `Rᵀ R = s² I`. -/
theorem similarity_of_blocks {α : Type} [CommRing α] (X Y Z : Matrix (Fin 3) (Fin 3) α)
    (s : α) (hX : X.transpose * X = 1) (hY : Y.transpose * Y = 1) (hZ : Z.transpose * Z = 1) :
    (s • (X * (Y * Z))).transpose * (s • (X * (Y * Z))) = (s ^ 2) • (1 : Matrix (Fin 3) (Fin 3) α) := by
  have h : (X * (Y * Z)).transpose * (X * (Y * Z)) = 1 := by
    rw [Matrix.transpose_mul, Matrix.transpose_mul]
    calc Z.transpose * Y.transpose * X.transpose * (X * (Y * Z))
        = Z.transpose * (Y.transpose * ((X.transpose * X) * Y)) * Z := by
          simp only [Matrix.mul_assoc]
      _ = 1 := by rw [hX, Matrix.one_mul, hY, Matrix.mul_one, hZ]
  rw [Matrix.transpose_smul, Matrix.smul_mul, Matrix.mul_smul, h, smul_smul, pow_two]

end Math

namespace Math

/-- C5. With zero rotation and scale 1, `createTransMatrix(tx, ty, tz, 0, 0, 0, 1)`
returns the identity array except that indices 12, 13, 14 hold `tx`, `ty`, `tz`;
zero translation gives exactly the identity array, and translation (1, 2, 3)
gives 1, 2, 3 at indices 12, 13, 14 with identity entries elsewhere. -/
theorem createTransMatrix_translation_only (tx ty tz : ℝ) :
    createTransMatrix Real.cos Real.sin tx ty tz 0 0 0 1 =
        [1, 0, 0, 0,
         0, 1, 0, 0,
         0, 0, 1, 0,
         tx, ty, tz, 1] ∧
      createTransMatrix Real.cos Real.sin 0 0 0 0 0 0 1 = (identity4 : List ℝ) ∧
      createTransMatrix Real.cos Real.sin 1 2 3 0 0 0 1 =
        ([1, 0, 0, 0,
          0, 1, 0, 0,
          0, 0, 1, 0,
          1, 2, 3, 1] : List ℝ) := by
  refine ⟨?_, ?_, ?_⟩ <;> simp [createTransMatrix_entries, identity4]

/-- C6. `createProjMatrix(ratio, fov, zNear, zFar)` returns the array with
index 0 = `1/tan(fov/2)/ratio`, index 5 = `1/tan(fov/2)`,
index 10 = `-(zFar+zNear)/(zFar-zNear)`, index 11 = `-1`,
index 14 = `-2*zFar*zNear/(zFar-zNear)` and 0 elsewhere, whenever `ratio ≠ 0`,
`tan(fov/2)` is defined and non-zero and `zNear ≠ zFar`; for `fov = π/2` and
ratio 1 the entries 0 and 5 are 1, and for `zNear = 1`, `zFar = 3` entry 10 is
`-2` and entry 14 is `-3`. -/
theorem createProjMatrix_spec :
    (∀ ratio fov zNear zFar : ℝ, ratio ≠ 0 → Real.cos (fov / 2) ≠ 0 →
        Real.tan (fov / 2) ≠ 0 → zNear ≠ zFar →
        createProjMatrix Real.tan ratio fov zNear zFar =
          [1 / Real.tan (fov / 2) / ratio, 0, 0, 0,
           0, 1 / Real.tan (fov / 2), 0, 0,
           0, 0, -(zFar + zNear) / (zFar - zNear), -1,
           0, 0, -2 * zFar * zNear / (zFar - zNear), 0]) ∧
      (∀ zNear zFar : ℝ,
        (createProjMatrix Real.tan 1 (Real.pi / 2) zNear zFar).getD 0 0 = 1 ∧
        (createProjMatrix Real.tan 1 (Real.pi / 2) zNear zFar).getD 5 0 = 1) ∧
      (∀ ratio fov : ℝ,
        (createProjMatrix Real.tan ratio fov 1 3).getD 10 0 = -2 ∧
        (createProjMatrix Real.tan ratio fov 1 3).getD 14 0 = -3) := by
  refine ⟨fun _ _ _ _ _ _ _ _ => rfl, fun zNear zFar => ?_, fun ratio fov => ?_⟩
  · have h : Real.pi / 2 / 2 = Real.pi / 4 := by ring
    simp [createProjMatrix, h, Real.tan_pi_div_four]
  · simp only [createProjMatrix, List.getD_cons_succ, List.getD_cons_zero]
    constructor <;> norm_num

/-- Witness of C6 at `fov = π/2`, ratio 1, `zNear = 1`, `zFar = 3`. -/
theorem createProjMatrix_spec_witness :
    (1 : ℝ) ≠ 0 ∧ Real.cos (Real.pi / 2 / 2) ≠ 0 ∧ Real.tan (Real.pi / 2 / 2) ≠ 0 ∧
      (1 : ℝ) ≠ 3 ∧
      createProjMatrix Real.tan 1 (Real.pi / 2) 1 3 =
        [1 / Real.tan (Real.pi / 2 / 2) / 1, 0, 0, 0,
         0, 1 / Real.tan (Real.pi / 2 / 2), 0, 0,
         0, 0, -(3 + 1) / (3 - 1), -1,
         0, 0, -2 * 3 * 1 / (3 - 1), 0] := by
  have h : Real.pi / 2 / 2 = Real.pi / 4 := by ring
  have hc : Real.cos (Real.pi / 2 / 2) ≠ 0 := by
    rw [h, Real.cos_pi_div_four]; positivity
  have ht : Real.tan (Real.pi / 2 / 2) ≠ 0 := by
    rw [h, Real.tan_pi_div_four]; exact one_ne_zero
  exact ⟨one_ne_zero, hc, ht, by norm_num,
    createProjMatrix_spec.1 1 (Real.pi / 2) 1 3 one_ne_zero hc ht (by norm_num)⟩

/-- C7. Starting from an identity accumulator, three calls of `leftMulMatrix4`
with left = `A`, then `B`, then `C` leave the same array as one call with the
precomputed product `C * B * A`, the product being computed by `leftMulMatrix4`
itself, in either grouping: `C * (B * A)` or `(C * B) * A`. -/
theorem leftMulMatrix4_three_calls (A B C : List ℝ)
    (hA : A.length = 16) (hB : B.length = 16) (hC : C.length = 16) :
    (leftMulMatrix4 (leftMulMatrix4 (leftMulMatrix4 identity4 A).1 B).1 C).1 =
        (leftMulMatrix4 identity4 (leftMulMatrix4 (leftMulMatrix4 A B).1 C).1).1 ∧
      (leftMulMatrix4 (leftMulMatrix4 (leftMulMatrix4 identity4 A).1 B).1 C).1 =
        (leftMulMatrix4 identity4 (leftMulMatrix4 A (leftMulMatrix4 B C).1).1).1 := by
  have hI : (identity4 : List ℝ).length = 16 := rfl
  have l1 := length_leftMulMatrix4 identity4 A hI hA
  have l2 := length_leftMulMatrix4 _ B l1 hB
  have l3 := length_leftMulMatrix4 _ C l2 hC
  have m1 := length_leftMulMatrix4 A B hA hB
  have m2 := length_leftMulMatrix4 _ C m1 hC
  have n1 := length_leftMulMatrix4 B C hB hC
  have n2 := length_leftMulMatrix4 A _ hA n1
  constructor
  · apply eq_of_toMatrix_eq _ _ l3 (length_leftMulMatrix4 _ _ hI m2)
    rw [toMatrix_leftMulMatrix4 _ C l2 hC, toMatrix_leftMulMatrix4 _ B l1 hB,
      toMatrix_leftMulMatrix4 _ A hI hA, toMatrix_leftMulMatrix4 _ _ hI m2,
      toMatrix_leftMulMatrix4 _ C m1 hC, toMatrix_leftMulMatrix4 A B hA hB,
      toMatrix_identity4]
    simp only [Matrix.mul_one, Matrix.mul_assoc]
  · apply eq_of_toMatrix_eq _ _ l3 (length_leftMulMatrix4 _ _ hI n2)
    rw [toMatrix_leftMulMatrix4 _ C l2 hC, toMatrix_leftMulMatrix4 _ B l1 hB,
      toMatrix_leftMulMatrix4 _ A hI hA, toMatrix_leftMulMatrix4 _ _ hI n2,
      toMatrix_leftMulMatrix4 A _ hA n1, toMatrix_leftMulMatrix4 B C hB hC,
      toMatrix_identity4]
    simp only [Matrix.mul_one, Matrix.mul_assoc]

/-- Witness of C7 on three concrete arrays. -/
theorem leftMulMatrix4_three_calls_witness :
    ([1, 2, 3, 4, 5, 6, 7, 8, 9, 10, 11, 12, 13, 14, 15, 16] : List ℝ).length = 16 ∧
    ([1, 0, 2, 0, 0, 1, 0, 0, 0, 3, 1, 0, 5, 0, 0, 1] : List ℝ).length = 16 ∧
    ([2, 0, 0, 0, 0, 2, 0, 0, 0, 0, 2, 0, 1, 1, 1, 1] : List ℝ).length = 16 ∧
    ((leftMulMatrix4 (leftMulMatrix4 (leftMulMatrix4 identity4
        ([1, 2, 3, 4, 5, 6, 7, 8, 9, 10, 11, 12, 13, 14, 15, 16] : List ℝ)).1
        [1, 0, 2, 0, 0, 1, 0, 0, 0, 3, 1, 0, 5, 0, 0, 1]).1
        [2, 0, 0, 0, 0, 2, 0, 0, 0, 0, 2, 0, 1, 1, 1, 1]).1 =
      (leftMulMatrix4 identity4 (leftMulMatrix4 (leftMulMatrix4
        ([1, 2, 3, 4, 5, 6, 7, 8, 9, 10, 11, 12, 13, 14, 15, 16] : List ℝ)
        [1, 0, 2, 0, 0, 1, 0, 0, 0, 3, 1, 0, 5, 0, 0, 1]).1
        [2, 0, 0, 0, 0, 2, 0, 0, 0, 0, 2, 0, 1, 1, 1, 1]).1).1 ∧
     (leftMulMatrix4 (leftMulMatrix4 (leftMulMatrix4 identity4
        ([1, 2, 3, 4, 5, 6, 7, 8, 9, 10, 11, 12, 13, 14, 15, 16] : List ℝ)).1
        [1, 0, 2, 0, 0, 1, 0, 0, 0, 3, 1, 0, 5, 0, 0, 1]).1
        [2, 0, 0, 0, 0, 2, 0, 0, 0, 0, 2, 0, 1, 1, 1, 1]).1 =
      (leftMulMatrix4 identity4 (leftMulMatrix4
        ([1, 2, 3, 4, 5, 6, 7, 8, 9, 10, 11, 12, 13, 14, 15, 16] : List ℝ)
        (leftMulMatrix4 [1, 0, 2, 0, 0, 1, 0, 0, 0, 3, 1, 0, 5, 0, 0, 1]
        [2, 0, 0, 0, 0, 2, 0, 0, 0, 0, 2, 0, 1, 1, 1, 1]).1).1).1) :=
  ⟨rfl, rfl, rfl, leftMulMatrix4_three_calls
    [1, 2, 3, 4, 5, 6, 7, 8, 9, 10, 11, 12, 13, 14, 15, 16]
    [1, 0, 2, 0, 0, 1, 0, 0, 0, 3, 1, 0, 5, 0, 0, 1]
    [2, 0, 0, 0, 0, 2, 0, 0, 0, 0, 2, 0, 1, 1, 1, 1] rfl rfl rfl⟩

/-- C10. For every translation, rotation and scale `s`, the array `M` returned
by `createTransMatrix` has sixteen entries, its upper-left 3x3 block `R`
satisfies `Rᵀ * R = s² • 1`, its entries 3, 7, 11, 15 are 0, 0, 0, 1 and its
entries 12, 13, 14 are `tx`, `ty`, `tz`; with scale 1 the block is orthogonal,
so the matrix is a rigid motion. -/
theorem createTransMatrix_similarity (tx ty tz rX rY rZ s : ℝ) :
    (createTransMatrix Real.cos Real.sin tx ty tz rX rY rZ s).length = 16 ∧
      (rotBlock (createTransMatrix Real.cos Real.sin tx ty tz rX rY rZ s)).transpose *
          rotBlock (createTransMatrix Real.cos Real.sin tx ty tz rX rY rZ s) =
        (s ^ 2) • (1 : Matrix (Fin 3) (Fin 3) ℝ) ∧
      (createTransMatrix Real.cos Real.sin tx ty tz rX rY rZ s).getD 3 0 = 0 ∧
      (createTransMatrix Real.cos Real.sin tx ty tz rX rY rZ s).getD 7 0 = 0 ∧
      (createTransMatrix Real.cos Real.sin tx ty tz rX rY rZ s).getD 11 0 = 0 ∧
      (createTransMatrix Real.cos Real.sin tx ty tz rX rY rZ s).getD 15 0 = 1 ∧
      (createTransMatrix Real.cos Real.sin tx ty tz rX rY rZ s).getD 12 0 = tx ∧
      (createTransMatrix Real.cos Real.sin tx ty tz rX rY rZ s).getD 13 0 = ty ∧
      (createTransMatrix Real.cos Real.sin tx ty tz rX rY rZ s).getD 14 0 = tz ∧
      (rotBlock (createTransMatrix Real.cos Real.sin tx ty tz rX rY rZ 1)).transpose *
          rotBlock (createTransMatrix Real.cos Real.sin tx ty tz rX rY rZ 1) = 1 := by
  have hsim : ∀ t : ℝ,
      (rotBlock (createTransMatrix Real.cos Real.sin tx ty tz rX rY rZ t)).transpose *
          rotBlock (createTransMatrix Real.cos Real.sin tx ty tz rX rY rZ t) =
        (t ^ 2) • (1 : Matrix (Fin 3) (Fin 3) ℝ) := by
    intro t
    rw [rotBlock_createTransMatrix]
    exact similarity_of_blocks _ _ _ t
      (blockX_orthogonal _ _ (Real.cos_sq_add_sin_sq rX))
      (blockY_orthogonal _ _ (Real.cos_sq_add_sin_sq rY))
      (blockZ_orthogonal _ _ (Real.cos_sq_add_sin_sq rZ))
  refine ⟨?_, hsim s, ?_, ?_, ?_, ?_, ?_, ?_, ?_, ?_⟩
  · rw [createTransMatrix_entries]; rfl
  · rw [createTransMatrix_entries]; rfl
  · rw [createTransMatrix_entries]; rfl
  · rw [createTransMatrix_entries]; rfl
  · rw [createTransMatrix_entries]; rfl
  · rw [createTransMatrix_entries]; rfl
  · rw [createTransMatrix_entries]; rfl
  · rw [createTransMatrix_entries]; rfl
  · have h := hsim 1
    simpa using h

end Math

namespace BasicShader

/-- With the `SHADER_LOAD_CLIP` bit set, `loadClipping` loads the height and the
flag. -/
theorem loadClipping_of_clip_bit {α : Type} (mode : Nat) (height : α) (clipPositive : Bool)
    (h : mode &&& SHADER_LOAD_CLIP ≠ 0) :
    loadClipping mode height clipPositive =
      [ProgramCall.loadFloat "clipHeight" height,
       ProgramCall.loadBool "clipPositive" clipPositive] := by
  simp [loadClipping, h]

/-- Without the `SHADER_LOAD_CLIP` bit, `loadClipping` does nothing. -/
theorem loadClipping_without_clip_bit {α : Type} (mode : Nat) (height : α)
    (clipPositive : Bool) (h : mode &&& SHADER_LOAD_CLIP = 0) :
    loadClipping mode height clipPositive = [] := by
  simp [loadClipping, h]

/-- C8 (the code at the failing input). A shader constructed with mode 0, where
the `SHADER_BIND_TEX_NORM` bit is clear, still binds slots 1 and 2:
`bindAttributes` binds "position", "textureCoord" and "norm" to slots 0, 1, 2
for every mode, because its condition tests the constant and not `mode`. -/
theorem bindAttributes_ignores_mode :
    (0 : Nat) &&& SHADER_BIND_TEX_NORM = 0 ∧
      boundSlots (bindAttributes 0 : List (ProgramCall ℝ)) = [0, 1, 2] ∧
      ∀ mode : Nat, (bindAttributes mode : List (ProgramCall ℝ)) =
        [ProgramCall.bindAttribute 0 "position",
         ProgramCall.bindAttribute 1 "textureCoord",
         ProgramCall.bindAttribute 2 "norm"] :=
  ⟨rfl, rfl, fun _ => rfl⟩

end BasicShader

namespace MainRender

variable {α : Type}

theorem passesFrom_start (t : Target) (shader : Shader) (es : List (Event α)) :
    passesFrom t (Event.start shader :: es) = (t, shader) :: passesFrom t es := rfl

theorem passesFrom_other (t : Target) (e : Event α) (es : List (Event α))
    (h : ∀ shader, e ≠ Event.start shader) :
    passesFrom t (e :: es) = passesFrom (targetAfter t e) es := by
  cases e <;> first | rfl | exact absurd rfl (h _)

theorem clipCallsFrom_loadClipping (t : Target) (shader : Shader) (height : α)
    (clipPositive : Bool) (es : List (Event α)) :
    clipCallsFrom t (Event.loadClipping shader height clipPositive :: es) =
      (t, shader, height, clipPositive) :: clipCallsFrom t es := rfl

theorem clipCallsFrom_other (t : Target) (e : Event α) (es : List (Event α))
    (h : ∀ shader height clipPositive, e ≠ Event.loadClipping shader height clipPositive) :
    clipCallsFrom t (e :: es) = clipCallsFrom (targetAfter t e) es := by
  cases e <;> first | rfl | exact absurd rfl (h _ _ _)

/-- Draw calls contribute no pass and leave the target alone. -/
theorem passesFrom_append_draw (t : Target) (l rest : List (Event α))
    (h : ∀ e ∈ l, e.isDraw = true) :
    passesFrom t (l ++ rest) = passesFrom t rest := by
  induction l with
  | nil => rfl
  | cons e l ih =>
    have he : e.isDraw = true := h e (List.mem_cons_self _ _)
    have hl : ∀ x ∈ l, x.isDraw = true := fun x hx => h x (List.mem_cons_of_mem _ hx)
    have step : passesFrom t (e :: (l ++ rest)) = passesFrom t (l ++ rest) := by
      cases e <;> first | rfl | simp [Event.isDraw] at he
    rw [List.cons_append, step, ih hl]

/-- Draw calls contribute no `loadClipping` call and leave the target alone. -/
theorem clipCallsFrom_append_draw (t : Target) (l rest : List (Event α))
    (h : ∀ e ∈ l, e.isDraw = true) :
    clipCallsFrom t (l ++ rest) = clipCallsFrom t rest := by
  induction l with
  | nil => rfl
  | cons e l ih =>
    have he : e.isDraw = true := h e (List.mem_cons_self _ _)
    have hl : ∀ x ∈ l, x.isDraw = true := fun x hx => h x (List.mem_cons_of_mem _ hx)
    have step : clipCallsFrom t (e :: (l ++ rest)) = clipCallsFrom t (l ++ rest) := by
      cases e <;> first | rfl | simp [Event.isDraw] at he
    rw [List.cons_append, step, ih hl]

theorem transMatrixCalls_append (l₁ l₂ : List (Event α)) :
    transMatrixCalls (l₁ ++ l₂) = transMatrixCalls l₁ ++ transMatrixCalls l₂ := by
  simp [transMatrixCalls, List.filterMap_append]

/-- Draw calls are no `createTransMatrix` calls. -/
theorem transMatrixCalls_draw (l : List (Event α)) (h : ∀ e ∈ l, e.isDraw = true) :
    transMatrixCalls l = [] := by
  induction l with
  | nil => rfl
  | cons e l ih =>
    have he : e.isDraw = true := h e (List.mem_cons_self _ _)
    have hl : ∀ x ∈ l, x.isDraw = true := fun x hx => h x (List.mem_cons_of_mem _ hx)
    have step : transMatrixCalls (e :: l) = transMatrixCalls l := by
      cases e <;> first | rfl | simp [Event.isDraw] at he
    rw [step, ih hl]

theorem entityLoop_isDraw (light : List Nat) (m : List (String × List Nat)) :
    ∀ e ∈ (entityLoop light m : List (Event α)), e.isDraw = true := by
  induction m with
  | nil => simp [entityLoop]
  | cons g rest ih =>
    intro e he
    simp only [entityLoop, List.mem_append, List.mem_singleton, List.mem_map] at he
    rcases he with ((rfl | ⟨x, _, rfl⟩) | rfl) | he
    · rfl
    · rfl
    · rfl
    · exact ih e he

theorem terrainLoop_isDraw (light : List Nat) (m : List (String × List Nat)) :
    ∀ e ∈ (terrainLoop light m : List (Event α)), e.isDraw = true := by
  induction m with
  | nil => simp [terrainLoop]
  | cons g rest ih =>
    intro e he
    simp only [terrainLoop, List.mem_append, List.mem_singleton, List.mem_map] at he
    rcases he with ((rfl | ⟨x, _, rfl⟩) | rfl) | he
    · rfl
    · rfl
    · rfl
    · exact ih e he

/-- The water-body part of `renderWater` consists of draw calls. -/
theorem waterLoop_isDraw (light : List Nat) (w : List Nat) :
    ∀ e ∈ (waterLoop light w : List (Event α)), e.isDraw = true := by
  intro e he
  unfold waterLoop at he
  split at he
  · simp at he
  · simp only [List.mem_append, List.mem_singleton, List.mem_map] at he
    rcases he with (rfl | ⟨x, _, rfl⟩) | rfl
    · rfl
    · rfl
    · rfl

/-- One run of `renderWithoutWater` under target `t` is three passes under `t`:
entities, terrains, skybox. -/
theorem passesFrom_renderWithoutWater [One α] (t : Target) (scene : Scene α)
    (cameraMatrix : TransArgs α) (clipHeight : α) (clipPositive : Bool)
    (rest : List (Event α)) :
    passesFrom t (renderWithoutWater scene cameraMatrix clipHeight clipPositive ++ rest) =
      (t, Shader.entityShader) :: (t, Shader.terrainShader) :: (t, Shader.skyboxShader) ::
        passesFrom t rest := by
  simp only [renderWithoutWater, prepareShader, List.append_assoc, List.cons_append,
    List.nil_append]
  simp only [passesFrom_start, passesFrom_other, targetAfter, ne_eq, reduceCtorEq, not_false_eq_true,
    implies_true, passesFrom_append_draw _ _ _ (entityLoop_isDraw _ _),
    passesFrom_append_draw _ _ _ (terrainLoop_isDraw _ _)]

/-- One run of `renderWithoutWater` under target `t` hands its clip height and
flag to `loadClipping` three times: entity, terrain and skybox shader. -/
theorem clipCallsFrom_renderWithoutWater [One α] (t : Target) (scene : Scene α)
    (cameraMatrix : TransArgs α) (clipHeight : α) (clipPositive : Bool)
    (rest : List (Event α)) :
    clipCallsFrom t (renderWithoutWater scene cameraMatrix clipHeight clipPositive ++ rest) =
      (t, Shader.entityShader, clipHeight, clipPositive) ::
      (t, Shader.terrainShader, clipHeight, clipPositive) ::
      (t, Shader.skyboxShader, clipHeight, clipPositive) :: clipCallsFrom t rest := by
  simp only [renderWithoutWater, prepareShader, List.append_assoc, List.cons_append,
    List.nil_append]
  simp only [clipCallsFrom_loadClipping, clipCallsFrom_other, targetAfter, ne_eq, reduceCtorEq, not_false_eq_true,
    implies_true, clipCallsFrom_append_draw _ _ _ (entityLoop_isDraw _ _),
    clipCallsFrom_append_draw _ _ _ (terrainLoop_isDraw _ _)]

theorem transMatrixCalls_renderWithoutWater [One α] (scene : Scene α)
    (cameraMatrix : TransArgs α) (clipHeight : α) (clipPositive : Bool) :
    transMatrixCalls (renderWithoutWater scene cameraMatrix clipHeight clipPositive) = [] := by
  simp only [renderWithoutWater, prepareShader, transMatrixCalls_append,
    transMatrixCalls_draw _ (entityLoop_isDraw _ _),
    transMatrixCalls_draw _ (terrainLoop_isDraw _ _)]
  simp [transMatrixCalls]

/-- The passes of a frame rendered with a scene set. -/
theorem passesFrom_render [Ring α] (scene : Scene α) (camera : Camera α) (d : Defaults α) :
    passesFrom Target.screen (render ⟨some scene⟩ camera d).1 =
      [(Target.screen, Shader.entityShader), (Target.screen, Shader.terrainShader),
       (Target.screen, Shader.skyboxShader),
       (Target.refraction, Shader.entityShader), (Target.refraction, Shader.terrainShader),
       (Target.refraction, Shader.skyboxShader),
       (Target.reflection, Shader.entityShader), (Target.reflection, Shader.terrainShader),
       (Target.reflection, Shader.skyboxShader),
       (Target.screen, Shader.waterShader)] := by
  simp only [render, renderWater, prepareShader, List.append_assoc, List.cons_append,
    List.nil_append]
  simp only [passesFrom_start, passesFrom_other, targetAfter, ne_eq, reduceCtorEq, not_false_eq_true,
    implies_true, passesFrom_renderWithoutWater,
    passesFrom_append_draw _ _ _ (waterLoop_isDraw _ _)]
  rfl

/-- The `loadClipping` calls of a frame rendered with a scene set. -/
theorem clipCallsFrom_render [Ring α] (scene : Scene α) (camera : Camera α)
    (d : Defaults α) :
    clipCallsFrom Target.screen (render ⟨some scene⟩ camera d).1 =
      [(Target.screen, Shader.entityShader, d.renderClipHeight, d.renderClipPositive),
       (Target.screen, Shader.terrainShader, d.renderClipHeight, d.renderClipPositive),
       (Target.screen, Shader.skyboxShader, d.renderClipHeight, d.renderClipPositive),
       (Target.refraction, Shader.entityShader, scene.getWaterHeight + 2, true),
       (Target.refraction, Shader.terrainShader, scene.getWaterHeight + 2, true),
       (Target.refraction, Shader.skyboxShader, scene.getWaterHeight + 2, true),
       (Target.reflection, Shader.entityShader, scene.getWaterHeight - 2, false),
       (Target.reflection, Shader.terrainShader, scene.getWaterHeight - 2, false),
       (Target.reflection, Shader.skyboxShader, scene.getWaterHeight - 2, false),
       (Target.screen, Shader.waterShader, d.prepareClipHeight, d.prepareClipPositive)] := by
  simp only [render, renderWater, prepareShader, List.append_assoc, List.cons_append,
    List.nil_append]
  simp only [clipCallsFrom_loadClipping, clipCallsFrom_other, targetAfter, ne_eq, reduceCtorEq, not_false_eq_true,
    implies_true, clipCallsFrom_renderWithoutWater,
    clipCallsFrom_append_draw _ _ _ (waterLoop_isDraw _ _)]
  rfl

/-- The `createTransMatrix` calls of a frame rendered with a scene set. -/
theorem transMatrixCalls_render [Ring α] (scene : Scene α) (camera : Camera α)
    (d : Defaults α) :
    transMatrixCalls (render ⟨some scene⟩ camera d).1 =
      [⟨camera.getPos.neg, camera.getRot.neg, 1, true⟩,
       ⟨⟨-camera.getPos.x, camera.getPos.y - 2 * scene.getWaterHeight, -camera.getPos.z⟩,
        ⟨camera.getRot.x, -camera.getRot.y, -camera.getRot.z⟩, 1, true⟩] := by
  simp only [render, renderWater, prepareShader, transMatrixCalls_append,
    transMatrixCalls_renderWithoutWater,
    transMatrixCalls_draw _ (waterLoop_isDraw _ _)]
  simp [transMatrixCalls]

end MainRender

namespace MainRender

/-- C2 (as amended). For every frame rendered with a scene set, `render` issues
its passes in this order: the three passes of the scene without water to the
default target (no off-screen target bound), then the same three passes with
the refraction target bound, then the same three with the reflection target
bound, then the water pass to the default target. -/
theorem render_pass_order (st : State ℝ) (scene : Scene ℝ) (camera : Camera ℝ)
    (d : Defaults ℝ) :
    passesFrom Target.screen (render (setScene st (some scene)) camera d).1 =
      [(Target.screen, Shader.entityShader), (Target.screen, Shader.terrainShader),
       (Target.screen, Shader.skyboxShader),
       (Target.refraction, Shader.entityShader), (Target.refraction, Shader.terrainShader),
       (Target.refraction, Shader.skyboxShader),
       (Target.reflection, Shader.entityShader), (Target.reflection, Shader.terrainShader),
       (Target.reflection, Shader.skyboxShader),
       (Target.screen, Shader.waterShader)] :=
  passesFrom_render scene camera d

/-- C2 as stated fails: on the demo scene the passes are not "refraction,
reflection, screen, water"; the pass to the screen comes first. -/
theorem render_pass_order_as_claimed_fails :
    passesFrom Target.screen
        (render (setScene initialState (some (demoScene : Scene ℝ))) demoCamera
          demoDefaults).1 ≠
      [(Target.refraction, Shader.entityShader), (Target.refraction, Shader.terrainShader),
       (Target.refraction, Shader.skyboxShader),
       (Target.reflection, Shader.entityShader), (Target.reflection, Shader.terrainShader),
       (Target.reflection, Shader.skyboxShader),
       (Target.screen, Shader.entityShader), (Target.screen, Shader.terrainShader),
       (Target.screen, Shader.skyboxShader),
       (Target.screen, Shader.waterShader)] := by
  have h := passesFrom_render (demoScene : Scene ℝ) demoCamera demoDefaults
  intro hc
  have hc' := h.symm.trans hc
  exact absurd hc' (by decide)

/-- C3 (as amended). For every scene water height `h`, the `loadClipping` calls
issued while the refraction target is bound are three, for the entity, terrain
and skybox shader, each with height `h + 2` and `clipPositive = true`; those
issued while the reflection target is bound are three, each with height `h - 2`
and `clipPositive = false`. -/
theorem render_clip_planes (st : State ℝ) (scene : Scene ℝ) (camera : Camera ℝ)
    (d : Defaults ℝ) :
    (clipCallsFrom Target.screen (render (setScene st (some scene)) camera d).1).filter
        (fun c => c.1 = Target.refraction) =
      [(Target.refraction, Shader.entityShader, scene.getWaterHeight + 2, true),
       (Target.refraction, Shader.terrainShader, scene.getWaterHeight + 2, true),
       (Target.refraction, Shader.skyboxShader, scene.getWaterHeight + 2, true)] ∧
    (clipCallsFrom Target.screen (render (setScene st (some scene)) camera d).1).filter
        (fun c => c.1 = Target.reflection) =
      [(Target.reflection, Shader.entityShader, scene.getWaterHeight - 2, false),
       (Target.reflection, Shader.terrainShader, scene.getWaterHeight - 2, false),
       (Target.reflection, Shader.skyboxShader, scene.getWaterHeight - 2, false)] := by
  have h := clipCallsFrom_render scene camera d
  simp only [setScene]
  rw [h]
  constructor <;> simp [List.filter_cons]

/-- C3 as stated fails: on the demo scene (water height 0) it is not the case
that every `loadClipping` call under the refraction target carries
`(h + 2, false)` and every one under the reflection target `(h - 2, true)`. -/
theorem render_clip_planes_as_claimed_fails :
    ¬ ∀ c ∈ clipCallsFrom Target.screen
        (render (setScene initialState (some (demoScene : Scene ℝ))) demoCamera
          demoDefaults).1,
      (c.1 = Target.refraction →
        c.2.2 = ((demoScene : Scene ℝ).getWaterHeight + 2, false)) ∧
      (c.1 = Target.reflection →
        c.2.2 = ((demoScene : Scene ℝ).getWaterHeight - 2, true)) := by
  intro hc
  have h := clipCallsFrom_render (demoScene : Scene ℝ) demoCamera demoDefaults
  have hmem : (Target.refraction, Shader.entityShader,
      (demoScene : Scene ℝ).getWaterHeight + 2, true) ∈
      clipCallsFrom Target.screen
        (render (setScene initialState (some (demoScene : Scene ℝ))) demoCamera
          demoDefaults).1 := by
    simp only [setScene]
    rw [h]
    simp
  have h2 := (hc _ hmem).1 rfl
  simp at h2

/-- C4. For every camera position (x, y, z), rotation (rx, ry, rz) and water
height `h`, `render` calls `createTransMatrix` exactly twice: first with the
negated camera position and rotation, then, for the reflection camera, with
translation `(-x, y - 2h, -z)`, the negation of the mirrored position
`(x, 2h - y, z)`, and rotation `(rx, -ry, -rz)`, the negation of
`(-rx, ry, rz)`; both with scale 1 and flag `true`. -/
theorem render_reflection_camera (st : State ℝ) (scene : Scene ℝ) (camera : Camera ℝ)
    (d : Defaults ℝ) :
    transMatrixCalls (render (setScene st (some scene)) camera d).1 =
        [⟨camera.getPos.neg, camera.getRot.neg, 1, true⟩,
         ⟨⟨-camera.getPos.x, camera.getPos.y - 2 * scene.getWaterHeight, -camera.getPos.z⟩,
          ⟨camera.getRot.x, -camera.getRot.y, -camera.getRot.z⟩, 1, true⟩] ∧
      (⟨-camera.getPos.x, camera.getPos.y - 2 * scene.getWaterHeight, -camera.getPos.z⟩ :
          vec3 ℝ) =
        vec3.neg ⟨camera.getPos.x, 2 * scene.getWaterHeight - camera.getPos.y,
          camera.getPos.z⟩ ∧
      (⟨camera.getRot.x, -camera.getRot.y, -camera.getRot.z⟩ : vec3 ℝ) =
        vec3.neg ⟨-camera.getRot.x, camera.getRot.y, camera.getRot.z⟩ := by
  refine ⟨transMatrixCalls_render scene camera d, ?_, ?_⟩
  · simp [vec3.neg]
  · simp [vec3.neg]

/-- C9. `render` ends in the fatal exit exactly when the current scene is null.
With a null scene (set by `setScene`, or never set) the whole trace is the
diagnostic followed by `exit(-1)`: no camera matrix, bind, shader load or draw.
With a scene set, `render` returns, issues all ten passes and ends with the
scene update, the display update and the frame-timing update. -/
theorem render_fatal_iff_no_scene (st : State ℝ) (camera : Camera ℝ) (d : Defaults ℝ) :
    ((render st camera d).2 = Outcome.exited (-1) ↔ getScene st = none) ∧
      ((render st camera d).1 = [Event.cerr "No scene to render!", Event.exit (-1)] ↔
        getScene st = none) ∧
      render (setScene st none) camera d =
        ([Event.cerr "No scene to render!", Event.exit (-1)], Outcome.exited (-1)) ∧
      render (initialState : State ℝ) camera d =
        ([Event.cerr "No scene to render!", Event.exit (-1)], Outcome.exited (-1)) ∧
      ∀ scene : Scene ℝ,
        (render (setScene st (some scene)) camera d).2 = Outcome.returned ∧
        passesFrom Target.screen (render (setScene st (some scene)) camera d).1 =
          [(Target.screen, Shader.entityShader), (Target.screen, Shader.terrainShader),
           (Target.screen, Shader.skyboxShader),
           (Target.refraction, Shader.entityShader),
           (Target.refraction, Shader.terrainShader),
           (Target.refraction, Shader.skyboxShader),
           (Target.reflection, Shader.entityShader),
           (Target.reflection, Shader.terrainShader),
           (Target.reflection, Shader.skyboxShader),
           (Target.screen, Shader.waterShader)] ∧
        [Event.sceneUpdate, Event.updateDisplay, Event.updateFps] <:+
          (render (setScene st (some scene)) camera d).1 := by
  refine ⟨?_, ?_, rfl, rfl, fun scene => ⟨rfl, passesFrom_render scene camera d, ⟨_, rfl⟩⟩⟩
  · rcases st with ⟨_ | scene⟩ <;> simp [render, getScene]
  · rcases st with ⟨_ | scene⟩ <;> simp [render, getScene]

end MainRender
